import Mathlib

/-!
# Verification of the pizza-ordering core (order store, pricing engine, tool surface)

Shallow embedding of the core modules of the repository:

* `db.py`   — order store (`create_order`, `add_order_item`, `remove_order_item`,
  `set_order_status`, `get_order`) and the pricing engine (`compute_totals`);
* `menu.py` — catalog lookups (`find_pizza`, `find_extra`);
* `agent.py` — tool surface (`start_order`, `add_pizza`, `checkout`).

The SQLite tables become lists of rows with explicit auto-increment counters;
`utc_now_iso` becomes an abstract monotone clock.  A fallible operation returns
`Except DbError α × DB`: the returned state is the state visible after the
operation, so "raises without mutating" is literally "returns the input state".
The SQLite `PRAGMA foreign_keys = ON` constraint from `order_items`/`order_updates`
to `orders` is embedded as the explicit existence check guarding the insert.
The Python `round` (round half to even) on the exact value is embedded as
`roundHalfEven` over `ℚ`; the Python `str.strip`/`str.lower` as `pyStrip`/`pyLower`.
-/

namespace PizzaBot

/-- Errors surfaced by the store / tool surface: `notFound` models the SQLite
foreign-key `IntegrityError` (referenced id absent), `validation` models the
`ValueError`s raised by the tool surface. -/
inductive DbError where
  | notFound : DbError
  | validation : String → DbError
deriving Repr, DecidableEq

/-- Row of the `orders` table (`db.py`, `init_db`). -/
structure OrderRow where
  id : Nat
  customer_id : Option Nat
  status : String
  delivery_type : String
  address : Option String
  notes : Option String
  created_at : Nat
  updated_at : Nat
deriving Repr, DecidableEq

/-- Row of the `order_items` table (`db.py`, `init_db`). -/
structure OrderItemRow where
  id : Nat
  order_id : Nat
  item_type : String
  item_id : String
  item_name : String
  size : Option String
  qty : Int
  unit_price : Int
  created_at : Nat
deriving Repr, DecidableEq

/-- Row of the `order_updates` audit table (`db.py`, `init_db`). -/
structure OrderUpdateRow where
  id : Nat
  order_id : Nat
  status : String
  message : Option String
  created_at : Nat
deriving Repr, DecidableEq

/-- Row of the `customers` table (`db.py`, `init_db`). -/
structure CustomerRow where
  id : Nat
  name : String
  phone : Option String
  created_at : Nat
deriving Repr, DecidableEq

/-- The SQLite database: one list per table (in insertion = id order), the
auto-increment counters, and an abstract clock standing in for `utc_now_iso`. -/
structure DB where
  customers : List CustomerRow
  orders : List OrderRow
  order_items : List OrderItemRow
  order_updates : List OrderUpdateRow
  next_customer_id : Nat
  next_order_id : Nat
  next_item_id : Nat
  next_update_id : Nat
  clock : Nat
deriving Repr, DecidableEq

/-- The empty, freshly `init_db`-ed database. -/
def DB.empty : DB :=
  { customers := [], orders := [], order_items := [], order_updates := [],
    next_customer_id := 1, next_order_id := 1, next_item_id := 1, next_update_id := 1,
    clock := 0 }

/-- Exists-check `SELECT 1 FROM orders WHERE id=?` for the foreign-key target. -/
def orderExists (db : DB) (order_id : Nat) : Bool :=
  db.orders.any (fun o => o.id == order_id)

/-- Well-formedness of the store, guaranteed by SQLite `AUTOINCREMENT` and the
foreign-key constraints: every row id is below the counter of its table and every
child row references an order id below the order counter. -/
def WF (db : DB) : Prop :=
  (∀ o ∈ db.orders, o.id < db.next_order_id) ∧
  (∀ i ∈ db.order_items, i.id < db.next_item_id ∧ i.order_id < db.next_order_id) ∧
  (∀ u ∈ db.order_updates, u.id < db.next_update_id ∧ u.order_id < db.next_order_id)

instance (db : DB) : Decidable (WF db) := by
  unfold WF; infer_instance

/-! ## Pricing engine (`db.py`, `compute_totals`) -/

/-- Result record of `compute_totals` (`db.py`, `OrderTotals`). -/
structure OrderTotals where
  subtotal : Int
  delivery_fee : Int
  tax : Int
  total : Int
deriving Repr, DecidableEq

/-- Model of the Python built-in `round` on an exact value: round half to even. -/
def roundHalfEven (q : ℚ) : ℤ :=
  if q - (⌊q⌋ : ℚ) < 1/2 then ⌊q⌋
  else if 1/2 < q - (⌊q⌋ : ℚ) then ⌊q⌋ + 1
  else if ⌊q⌋ % 2 = 0 then ⌊q⌋ else ⌊q⌋ + 1

/-- Embeds `db.compute_totals(items, delivery_fee, tax_percent)`: subtotal accumulated
by the `for` loop, `tax = round(subtotal * tax_percent)`, `total = subtotal +
delivery_fee + tax`. -/
def compute_totals (items : List OrderItemRow) (delivery_fee : Int)
    (tax_percent : ℚ) : OrderTotals :=
  let subtotal : Int := items.foldl (fun acc item => acc + item.qty * item.unit_price) 0
  let tax := roundHalfEven ((subtotal : ℚ) * tax_percent)
  let total := subtotal + delivery_fee + tax
  { subtotal := subtotal, delivery_fee := delivery_fee, tax := tax, total := total }

/-! ## Menu catalog (`menu.py`) -/

/-- A pizza catalog entry: `{id, name, sizes: {small, medium, large}}`. -/
structure Pizza where
  id : String
  name : String
  small : Int
  medium : Int
  large : Int
deriving Repr, DecidableEq

/-- An extra catalog entry: `{id, name, price}`. -/
structure Extra where
  id : String
  name : String
  price : Int
deriving Repr, DecidableEq

/-- The loaded menu (`menu.py`, `Menu`): pizzas, extras, delivery fee, tax rate. -/
structure Menu where
  pizzas : List Pizza
  extras : List Extra
  delivery_fee : Int
  tax_percent : ℚ
deriving Repr, DecidableEq

/-- Python `str.lower()` (ASCII case fold, which covers the catalog ids). -/
def pyLower (s : String) : String :=
  String.mk (s.data.map Char.toLower)

/-- Python `str.strip()`: drop leading and trailing whitespace. -/
def pyStrip (s : String) : String :=
  String.mk (((s.data.dropWhile Char.isWhitespace).reverse.dropWhile
    Char.isWhitespace).reverse)

/-- Embeds `menu.find_pizza`: lowercases and strips the query, compares against the
lowercased catalog id, first match wins, `none` if absent. -/
def find_pizza (menu : Menu) (pizza_id : String) : Option Pizza :=
  let pid := pyLower (pyStrip pizza_id)
  menu.pizzas.find? (fun p => pyLower p.id == pid)

/-- Embeds `menu.find_extra`: same lookup over the extras. -/
def find_extra (menu : Menu) (extra_id : String) : Option Extra :=
  let eid := pyLower (pyStrip extra_id)
  menu.extras.find? (fun e => pyLower e.id == eid)

/-! ## Order store (`db.py`) -/

/-- Embeds `db.create_customer`: inserts a customer row; `(phone or "").strip() or None`
normalizes a blank phone to NULL. -/
def create_customer (db : DB) (name : String) (phone : Option String) :
    Nat × DB :=
  let phone' := match phone with
    | none => none
    | some p => if pyStrip p = "" then none else some (pyStrip p)
  let cid := db.next_customer_id
  let row : CustomerRow :=
    { id := cid, name := pyStrip name, phone := phone', created_at := db.clock }
  let db' : DB := { db with
    customers := db.customers ++ [row]
    next_customer_id := cid + 1
    clock := db.clock + 1 }
  (cid, db')

/-- Embeds `db.create_order`: inserts the order row in status `"draft"` and the
matching `"Order created"` audit row, sharing one `now`, then commits. -/
def create_order (db : DB) (customer_id : Option Nat) (delivery_type : String)
    (address : Option String) (notes : Option String) : Nat × DB :=
  let now := db.clock
  let oid := db.next_order_id
  let row : OrderRow :=
    { id := oid, customer_id := customer_id, status := "draft",
      delivery_type := delivery_type, address := address, notes := notes,
      created_at := now, updated_at := now }
  let upd : OrderUpdateRow :=
    { id := db.next_update_id, order_id := oid, status := "draft",
      message := some "Order created", created_at := now }
  let db' : DB := { db with
    orders := db.orders ++ [row]
    order_updates := db.order_updates ++ [upd]
    next_order_id := oid + 1
    next_update_id := db.next_update_id + 1
    clock := db.clock + 1 }
  (oid, db')

/-- Embeds `db.add_order_item`: the `INSERT INTO order_items` trips the foreign-key
constraint (an `IntegrityError`, before anything is written) when the order is
absent; otherwise the item row is inserted and the order field `updated_at` bumped
with a second `utc_now_iso()` call. -/
def add_order_item (db : DB) (order_id : Nat) (item_type item_id item_name : String)
    (qty unit_price : Int) (size : Option String) : Except DbError Nat × DB :=
  if orderExists db order_id then
    let iid := db.next_item_id
    let row : OrderItemRow :=
      { id := iid, order_id := order_id, item_type := item_type,
        item_id := item_id, item_name := item_name, size := size,
        qty := qty, unit_price := unit_price, created_at := db.clock }
    let db1 : DB := { db with
      order_items := db.order_items ++ [row]
      next_item_id := iid + 1
      clock := db.clock + 1 }
    let db2 : DB := { db1 with
      orders := db1.orders.map (fun o =>
        if o.id == order_id then { o with updated_at := db1.clock } else o)
      clock := db1.clock + 1 }
    (Except.ok iid, db2)
  else
    (Except.error DbError.notFound, db)

/-- Embeds `db.remove_order_item`, `DELETE FROM order_items WHERE id=?` — filters the
row out, succeeding (and changing nothing) when the id is absent. -/
def remove_order_item (db : DB) (order_item_id : Nat) : DB :=
  { db with order_items := db.order_items.filter (fun i => !(i.id == order_item_id)) }

/-- Embeds `db.set_order_status`: one `now`, `UPDATE orders SET status, updated_at`,
then `INSERT` the audit row.  When the order is absent, the `UPDATE` matches
zero rows and the `INSERT` trips the foreign key, so the transaction leaves the
store unchanged. -/
def set_order_status (db : DB) (order_id : Nat) (status : String)
    (message : Option String) : Except DbError Unit × DB :=
  if orderExists db order_id then
    let now := db.clock
    let upd : OrderUpdateRow :=
      { id := db.next_update_id, order_id := order_id, status := status,
        message := message, created_at := now }
    let db' : DB := { db with
      orders := db.orders.map (fun o =>
        if o.id == order_id then { o with status := status, updated_at := now } else o)
      order_updates := db.order_updates ++ [upd]
      next_update_id := db.next_update_id + 1
      clock := db.clock + 1 }
    (Except.ok (), db')
  else
    (Except.error DbError.notFound, db)

/-- The payload of `db.get_order`: the order row with its items and updates. -/
structure OrderSnapshot where
  order : OrderRow
  items : List OrderItemRow
  updates : List OrderUpdateRow
deriving Repr, DecidableEq

/-- Embeds `db.get_order`: `none` when the order row is absent, else the row plus its
items and updates, each `ORDER BY id ASC` (= insertion order of the lists). -/
def get_order (db : DB) (order_id : Nat) : Option OrderSnapshot :=
  match db.orders.find? (fun o => o.id == order_id) with
  | none => none
  | some row =>
      some { order := row,
             items := db.order_items.filter (fun i => i.order_id == order_id),
             updates := db.order_updates.filter (fun u => u.order_id == order_id) }

/-! ## Tool surface (`agent.py`) -/

/-- Tool `start_order`: validates the normalized delivery type, creates a
customer only when a non-blank name is supplied, then creates the draft order. -/
def start_order (db : DB) (delivery_type : String) (customer_name : Option String)
    (phone : Option String) (address : Option String) (notes : Option String) :
    Except DbError Nat × DB :=
  let dt := pyLower (pyStrip delivery_type)
  if dt = "delivery" ∨ dt = "pickup" then
    let (customer_id, db1) : Option Nat × DB :=
      match customer_name with
      | none => (none, db)
      | some n =>
          if pyStrip n = "" then (none, db)
          else
            let (cid, db') := create_customer db n phone
            (some cid, db')
    let (oid, db2) := create_order db1 customer_id dt address notes
    (Except.ok oid, db2)
  else
    (Except.error (DbError.validation "delivery_type must be delivery or pickup"), db)

/-- Price of a pizza for a size already validated to be small/medium/large
(`pizza["sizes"][size]`). -/
def sizePrice (p : Pizza) (size : String) : Int :=
  if size == "small" then p.small
  else if size == "medium" then p.medium
  else p.large

/-- Tool `add_pizza`: validates the size, resolves the pizza through the
catalog, snapshots its id/name/price into the item row, returns the fresh
order payload. -/
def add_pizza (menu : Menu) (db : DB) (order_id : Nat) (pizza_id : String)
    (size : String) (qty : Int) : Except DbError (Option OrderSnapshot) × DB :=
  let sz := pyLower (pyStrip size)
  if sz = "small" ∨ sz = "medium" ∨ sz = "large" then
    match find_pizza menu pizza_id with
    | none => (Except.error (DbError.validation "Unknown pizza_id"), db)
    | some p =>
        match add_order_item db order_id "pizza" p.id p.name qty (sizePrice p sz) (some sz) with
        | (Except.ok _, db1) => (Except.ok (get_order db1 order_id), db1)
        | (Except.error e, db1) => (Except.error e, db1)
  else
    (Except.error (DbError.validation "size must be one of: small, medium, large"), db)

/-- Tool `add_extra`: resolves the extra through the catalog and snapshots its
id/name/price into the item row. -/
def add_extra (menu : Menu) (db : DB) (order_id : Nat) (extra_id : String)
    (qty : Int) : Except DbError (Option OrderSnapshot) × DB :=
  match find_extra menu extra_id with
  | none => (Except.error (DbError.validation "Unknown extra_id"), db)
  | some e =>
      match add_order_item db order_id "extra" e.id e.name qty e.price none with
      | (Except.ok _, db1) => (Except.ok (get_order db1 order_id), db1)
      | (Except.error err, db1) => (Except.error err, db1)

/-- Tool `checkout`: fetches the payload, rejects an absent order then an empty
order (before any write), picks the delivery fee by `delivery_type`, computes
totals on the pre-transition items, transitions to `placed`/"Order placed",
and returns the refreshed payload with the totals. -/
def checkout (menu : Menu) (db : DB) (order_id : Nat) :
    Except DbError (Option OrderSnapshot × OrderTotals) × DB :=
  match get_order db order_id with
  | none => (Except.error (DbError.validation "Order not found"), db)
  | some payload =>
      if payload.items.isEmpty then
        (Except.error (DbError.validation "Order has no items"), db)
      else
        let delivery_fee :=
          if payload.order.delivery_type == "delivery" then menu.delivery_fee else 0
        let totals := compute_totals payload.items delivery_fee menu.tax_percent
        match set_order_status db order_id "placed" (some "Order placed") with
        | (Except.ok _, db1) => (Except.ok (get_order db1 order_id, totals), db1)
        | (Except.error e, db1) => (Except.error e, db1)

/-- A sequence of `set_order_status` calls, stopping at the first failure
(each tool call is one synchronous unit of work). -/
def apply_status_updates (db : DB) (order_id : Nat) :
    List (String × Option String) → Except DbError Unit × DB
  | [] => (Except.ok (), db)
  | c :: rest =>
      match set_order_status db order_id c.1 c.2 with
      | (Except.ok _, db') => apply_status_updates db' order_id rest
      | (Except.error e, db') => (Except.error e, db')

end PizzaBot

namespace PizzaBot

/-! ## Helper lemmas about the store operations -/

/-- Finding a row by id commutes with an id-preserving conditional row update
(the `UPDATE ... WHERE id=?` pattern). -/
theorem find?_map_ite (l : List OrderRow) (oid : Nat) (f : OrderRow → OrderRow)
    (hf : ∀ o, (f o).id = o.id) :
    (l.map (fun o => if o.id == oid then f o else o)).find? (fun o => o.id == oid)
      = (l.find? (fun o => o.id == oid)).map f := by
  induction l with
  | nil => rfl
  | cons o t ih =>
      rw [List.map_cons]
      by_cases h : (o.id == oid) = true
      · have hfb : ((f o).id == oid) = true := by rw [hf o]; exact h
        rw [if_pos h, List.find?_cons_of_pos (p := fun (o : OrderRow) => o.id == oid) _ hfb,
          List.find?_cons_of_pos (p := fun (o : OrderRow) => o.id == oid) _ h]
        rfl
      · rw [if_neg h, List.find?_cons_of_neg (p := fun (o : OrderRow) => o.id == oid) _ h,
          List.find?_cons_of_neg (p := fun (o : OrderRow) => o.id == oid) _ h, ih]

/-- An order found by `get_order` exists for the foreign-key check. -/
theorem orderExists_of_get_order {db : DB} {oid : Nat} {snap : OrderSnapshot}
    (h : get_order db oid = some snap) : orderExists db oid = true := by
  unfold get_order at h
  rcases hf : db.orders.find? (fun o => o.id == oid) with _ | row
  · rw [hf] at h; exact absurd h (by simp)
  · have hrow : ((fun o => o.id == oid) row) = true := List.find?_some (p := fun (o : OrderRow) => o.id == oid) hf
    have hmem : row ∈ db.orders := List.mem_of_find?_eq_some hf
    exact List.any_eq_true.mpr ⟨row, hmem, hrow⟩

/-- Characterization of a successful `get_order`. -/
theorem get_order_eq_some {db : DB} {oid : Nat} {snap : OrderSnapshot}
    (h : get_order db oid = some snap) :
    db.orders.find? (fun o => o.id == oid) = some snap.order ∧
    snap.items = db.order_items.filter (fun i => i.order_id == oid) ∧
    snap.updates = db.order_updates.filter (fun u => u.order_id == oid) := by
  unfold get_order at h
  rcases hf : db.orders.find? (fun o => o.id == oid) with _ | row
  · rw [hf] at h; exact absurd h (by simp)
  · rw [hf] at h
    cases Option.some.inj h
    exact ⟨hf, rfl, rfl⟩

/-- Effect of `set_order_status` on an order visible through `get_order`:
both writes land — the status/`updated_at` update and the appended audit row. -/
theorem set_order_status_spec {db : DB} {oid : Nat} {snap : OrderSnapshot}
    (st : String) (msg : Option String)
    (h : get_order db oid = some snap) :
    ∃ db', set_order_status db oid st msg = (Except.ok (), db') ∧
      get_order db' oid = some
        { order := { snap.order with status := st, updated_at := db.clock },
          items := snap.items,
          updates := snap.updates ++
            [{ id := db.next_update_id, order_id := oid, status := st,
               message := msg, created_at := db.clock }] } := by
  have hx := orderExists_of_get_order h
  obtain ⟨hfind, hitems, hupdates⟩ := get_order_eq_some h
  unfold set_order_status
  rw [if_pos hx]
  refine ⟨_, rfl, ?_⟩
  unfold get_order
  dsimp only
  rw [find?_map_ite db.orders oid
    (fun o => { o with status := st, updated_at := db.clock }) (fun o => rfl), hfind]
  dsimp only [Option.map]
  rw [List.filter_append, ← hitems, ← hupdates]
  simp

/-- Payload of a freshly created order in a well-formed store: status `draft`,
no items, exactly the one `"Order created"` audit row. -/
theorem create_order_spec {db : DB} (cid : Option Nat) (dt : String)
    (addr notes : Option String) (hWF : WF db) :
    get_order (create_order db cid dt addr notes).2 (create_order db cid dt addr notes).1
      = some
        { order := { id := db.next_order_id, customer_id := cid, status := "draft",
                     delivery_type := dt, address := addr, notes := notes,
                     created_at := db.clock, updated_at := db.clock },
          items := [],
          updates := [{ id := db.next_update_id, order_id := db.next_order_id,
                        status := "draft", message := some "Order created",
                        created_at := db.clock }] } := by
  obtain ⟨ho, hi, hu⟩ := hWF
  unfold create_order get_order
  dsimp only
  rw [List.find?_append]
  have h1 : db.orders.find? (fun o => o.id == db.next_order_id) = none :=
    List.find?_eq_none.mpr (fun o hmem hb =>
      absurd (beq_iff_eq.mp hb) (Nat.ne_of_lt (ho o hmem)))
  have h2 : db.order_items.filter
      (fun i => i.order_id == db.next_order_id) = [] :=
    List.filter_eq_nil_iff.mpr (fun i hmem hb =>
      absurd (beq_iff_eq.mp hb) (Nat.ne_of_lt (hi i hmem).2))
  have h3 : db.order_updates.filter
      (fun u => u.order_id == db.next_order_id) = [] :=
    List.filter_eq_nil_iff.mpr (fun u hmem hb =>
      absurd (beq_iff_eq.mp hb) (Nat.ne_of_lt (hu u hmem).2))
  rw [h1, List.filter_append, h2, h3]
  simp

/-- Effect of `add_order_item` on an existing order: the item row is appended
and the order field `updated_at` is bumped by the second clock read. -/
theorem add_order_item_spec {db : DB} {oid : Nat} {snap : OrderSnapshot}
    (ty tid tname : String) (qty price : Int) (size : Option String)
    (h : get_order db oid = some snap) :
    ∃ db', add_order_item db oid ty tid tname qty price size
        = (Except.ok db.next_item_id, db') ∧
      get_order db' oid = some
        { order := { snap.order with updated_at := db.clock + 1 },
          items := snap.items ++
            [{ id := db.next_item_id, order_id := oid, item_type := ty, item_id := tid,
               item_name := tname, size := size, qty := qty, unit_price := price,
               created_at := db.clock }],
          updates := snap.updates } := by
  have hx := orderExists_of_get_order h
  obtain ⟨hfind, hitems, hupdates⟩ := get_order_eq_some h
  unfold add_order_item
  rw [if_pos hx]
  refine ⟨_, rfl, ?_⟩
  unfold get_order
  dsimp only
  rw [find?_map_ite db.orders oid
    (fun o => { o with updated_at := db.clock + 1 }) (fun o => rfl), hfind]
  dsimp only [Option.map]
  rw [List.filter_append, ← hitems, ← hupdates]
  simp

/-- Effect of a successful `checkout`: totals are computed on the
pre-transition items with the fee selected by `delivery_type`, and the order
moves to `placed` with the "Order placed" audit row. -/
theorem checkout_spec {menu : Menu} {db : DB} {oid : Nat} {snap : OrderSnapshot}
    (h : get_order db oid = some snap) (hne : snap.items ≠ []) :
    ∃ db', checkout menu db oid =
        (Except.ok (get_order db' oid,
           compute_totals snap.items
             (if snap.order.delivery_type == "delivery" then menu.delivery_fee else 0)
             menu.tax_percent), db') ∧
      get_order db' oid = some
        { order := { snap.order with status := "placed", updated_at := db.clock },
          items := snap.items,
          updates := snap.updates ++
            [{ id := db.next_update_id, order_id := oid, status := "placed",
               message := some "Order placed", created_at := db.clock }] } := by
  obtain ⟨db', hset, hget⟩ := set_order_status_spec "placed" (some "Order placed") h
  refine ⟨db', ?_, hget⟩
  unfold checkout
  rw [h]
  dsimp only
  rw [if_neg (by simp only [List.isEmpty_iff]; exact hne), hset]

/-- The half-to-even rounding never strays more than half a unit from the
exact value. -/
theorem roundHalfEven_close (q : ℚ) : |(roundHalfEven q : ℚ) - q| ≤ 1/2 := by
  unfold roundHalfEven
  have h0 : (0:ℚ) ≤ q - (⌊q⌋ : ℚ) := by
    have := Int.floor_le q; linarith
  have h1 : q - (⌊q⌋ : ℚ) < 1 := by
    have := Int.lt_floor_add_one q; linarith
  by_cases hlt : q - (⌊q⌋ : ℚ) < 1/2
  · rw [if_pos hlt, abs_le]; constructor <;> linarith
  · rw [if_neg hlt]
    by_cases hgt : 1/2 < q - (⌊q⌋ : ℚ)
    · rw [if_pos hgt, abs_le]; push_cast; constructor <;> linarith
    · rw [if_neg hgt]
      have heq : q - (⌊q⌋ : ℚ) = 1/2 := le_antisymm (not_lt.mp hgt) (not_lt.mp hlt)
      by_cases hev : ⌊q⌋ % 2 = 0
      · rw [if_pos hev, abs_le]; constructor <;> linarith
      · rw [if_neg hev, abs_le]; push_cast; constructor <;> linarith

/-! ## Claim theorems -/

/-- C1: `compute_totals` returns a subtotal equal to Σ qty·unit_price over the
items in integer arithmetic, a tax equal to round(subtotal·taxPercent) under
the single half-to-even rounding rule (hence within one unit of the exact
value), and a total exactly equal to subtotal + deliveryFee + tax. -/
theorem compute_totals_correct (items : List OrderItemRow) (delivery_fee : Int)
    (tax_percent : ℚ) :
    (compute_totals items delivery_fee tax_percent).subtotal
        = (items.map (fun i => i.qty * i.unit_price)).sum ∧
    (compute_totals items delivery_fee tax_percent).tax
        = roundHalfEven (((compute_totals items delivery_fee tax_percent).subtotal : ℚ)
            * tax_percent) ∧
    |((compute_totals items delivery_fee tax_percent).tax : ℚ)
        - ((compute_totals items delivery_fee tax_percent).subtotal : ℚ) * tax_percent| ≤ 1 ∧
    (compute_totals items delivery_fee tax_percent).total
        = (compute_totals items delivery_fee tax_percent).subtotal + delivery_fee
          + (compute_totals items delivery_fee tax_percent).tax := by
  refine ⟨?_, rfl, ?_, rfl⟩
  · unfold compute_totals
    dsimp only
    rw [List.sum_eq_foldl, List.foldl_map]
  · exact le_trans (roundHalfEven_close _) (by norm_num)

/-- C10: on the empty item list `compute_totals` returns subtotal 0, tax 0 and
total equal to the delivery fee alone — the fee itself is never taxed. -/
theorem compute_totals_nil (delivery_fee : Int) (tax_percent : ℚ) :
    compute_totals [] delivery_fee tax_percent
      = { subtotal := 0, delivery_fee := delivery_fee, tax := 0, total := delivery_fee } := by
  unfold compute_totals roundHalfEven
  norm_num

/-- A small concrete catalog used by the witnesses. -/
def sampleMenu : Menu :=
  { pizzas := [{ id := "margherita", name := "Margherita",
                 small := 500, medium := 800, large := 1100 },
               { id := "pepperoni", name := "Pepperoni",
                 small := 600, medium := 900, large := 1200 }],
    extras := [{ id := "garlic-bread", name := "Garlic Bread", price := 150 }],
    delivery_fee := 200, tax_percent := 1/20 }

/-- Sample order row for the witnesses. -/
def sampleOrderRow : OrderRow :=
  { id := 1, customer_id := none, status := "draft", delivery_type := "pickup",
    address := none, notes := none, created_at := 0, updated_at := 1 }

/-- Sample item row for the witnesses. -/
def sampleItemRow : OrderItemRow :=
  { id := 1, order_id := 1, item_type := "pizza", item_id := "margherita",
    item_name := "Margherita", size := some "medium", qty := 2,
    unit_price := 800, created_at := 1 }

/-- Sample audit row for the witnesses. -/
def sampleUpdateRow : OrderUpdateRow :=
  { id := 1, order_id := 1, status := "draft",
    message := some "Order created", created_at := 0 }

/-- A small concrete store used by the witnesses: one draft pickup order
holding one pizza item. -/
def sampleDB : DB :=
  { customers := [],
    orders := [sampleOrderRow],
    order_items := [sampleItemRow],
    order_updates := [sampleUpdateRow],
    next_customer_id := 1, next_order_id := 2, next_item_id := 2,
    next_update_id := 2, clock := 2 }

/-- C5: `set_order_status` is atomic over its two writes — when the order
exists both the status/`updated_at` update and the audit append land, and when
it does not (the only failure the storage layer can produce here) the
operation fails and every table is exactly as before. -/
theorem set_order_status_atomic (db : DB) (oid : Nat) (st : String)
    (msg : Option String) :
    (orderExists db oid = true →
       ∃ db', set_order_status db oid st msg = (Except.ok (), db') ∧
         db'.orders = db.orders.map (fun o =>
           if o.id == oid then { o with status := st, updated_at := db.clock } else o) ∧
         db'.order_updates = db.order_updates ++
           [{ id := db.next_update_id, order_id := oid, status := st,
              message := msg, created_at := db.clock }] ∧
         db'.order_items = db.order_items ∧ db'.customers = db.customers) ∧
    (orderExists db oid = false →
       set_order_status db oid st msg = (Except.error DbError.notFound, db)) := by
  constructor
  · intro hx
    unfold set_order_status
    rw [if_pos hx]
    exact ⟨_, rfl, rfl, rfl, rfl, rfl⟩
  · intro hx
    unfold set_order_status
    rw [if_neg (by simp [hx])]

/-- Witness for C5 at the concrete sample store. -/
theorem set_order_status_atomic_witness :
    ∃ db', set_order_status sampleDB 1 "preparing" none = (Except.ok (), db') ∧
      db'.orders = sampleDB.orders.map (fun o =>
        if o.id == 1 then { o with status := "preparing", updated_at := sampleDB.clock } else o) ∧
      db'.order_updates = sampleDB.order_updates ++
        [{ id := sampleDB.next_update_id, order_id := 1, status := "preparing",
           message := none, created_at := sampleDB.clock }] ∧
      db'.order_items = sampleDB.order_items ∧ db'.customers = sampleDB.customers :=
  (set_order_status_atomic sampleDB 1 "preparing" none).1 (by decide)

/-- C6: inserting an item for an absent order trips the foreign-key check and
fails with the storage-layer not-found error, leaving the store — item rows
and order timestamps included — exactly unchanged. -/
theorem add_order_item_fk (db : DB) (oid : Nat) (ty tid tname : String)
    (qty price : Int) (size : Option String)
    (h : orderExists db oid = false) :
    add_order_item db oid ty tid tname qty price size
      = (Except.error DbError.notFound, db) := by
  unfold add_order_item
  rw [if_neg (by simp [h])]

/-- Witness for C6: adding to order 7 of the empty store fails untouched. -/
theorem add_order_item_fk_witness :
    add_order_item DB.empty 7 "pizza" "margherita" "Margherita" 1 800 none
      = (Except.error DbError.notFound, DB.empty) :=
  add_order_item_fk DB.empty 7 "pizza" "margherita" "Margherita" 1 800 none (by decide)

/-- C7: `remove_order_item` is an idempotent delete: removing an absent id
succeeds and changes nothing, removing twice equals removing once, a removed
id never reappears in the order payload, and the other items of the order —
plus its order row and audit log — are untouched. -/
theorem remove_order_item_idempotent (db : DB) (iid oid : Nat) :
    ((∀ i ∈ db.order_items, i.id ≠ iid) → remove_order_item db iid = db) ∧
    remove_order_item (remove_order_item db iid) iid = remove_order_item db iid ∧
    (∀ snap, get_order (remove_order_item db iid) oid = some snap →
       ∀ i ∈ snap.items, i.id ≠ iid) ∧
    (∀ snap, get_order db oid = some snap →
       ∃ snap', get_order (remove_order_item db iid) oid = some snap' ∧
         snap'.order = snap.order ∧ snap'.updates = snap.updates ∧
         snap'.items = snap.items.filter (fun i => !(i.id == iid))) := by
  have hand : (fun (i : OrderItemRow) => !(i.id == iid) && !(i.id == iid))
      = fun (i : OrderItemRow) => !(i.id == iid) :=
    funext (fun i => Bool.and_self _)
  refine ⟨fun h => ?_, ?_, fun snap hs i hi => ?_, fun snap hs => ?_⟩
  · unfold remove_order_item
    rw [List.filter_eq_self.mpr (fun i hi => by simp [h i hi])]
  · unfold remove_order_item
    dsimp only
    rw [List.filter_filter, hand]
  · obtain ⟨hfind, hitems, hupdates⟩ := get_order_eq_some hs
    rw [hitems] at hi
    have hmem := (List.mem_filter.mp hi).1
    have hpass := (List.mem_filter.mp hmem).2
    simpa using hpass
  · obtain ⟨hfind, hitems, hupdates⟩ := get_order_eq_some hs
    refine ⟨⟨snap.order, snap.items.filter (fun i => !(i.id == iid)), snap.updates⟩,
      ?_, rfl, rfl, rfl⟩
    unfold get_order remove_order_item
    dsimp only
    rw [hfind, hitems, hupdates]
    rw [List.filter_filter, List.filter_filter]
    have hcomm : (fun (i : OrderItemRow) => (i.order_id == oid) && !(i.id == iid))
        = fun (i : OrderItemRow) => !(i.id == iid) && (i.order_id == oid) :=
      funext (fun i => Bool.and_comm _ _)
    rw [hcomm]

/-- Witness for C7 at the concrete stores: absent id, double removal, removed
id gone, other rows preserved. -/
theorem remove_order_item_idempotent_witness :
    (remove_order_item DB.empty 5 = DB.empty) ∧
    (remove_order_item (remove_order_item sampleDB 1) 1 = remove_order_item sampleDB 1) ∧
    (∀ i ∈ (⟨sampleOrderRow, [], [sampleUpdateRow]⟩ : OrderSnapshot).items, i.id ≠ 1) ∧
    (∃ snap', get_order (remove_order_item sampleDB 1) 1 = some snap' ∧
       snap'.order = sampleOrderRow ∧ snap'.updates = [sampleUpdateRow] ∧
       snap'.items = [sampleItemRow].filter (fun i => !(i.id == 1))) :=
  ⟨(remove_order_item_idempotent DB.empty 5 1).1 (by decide),
   (remove_order_item_idempotent sampleDB 1 1).2.1,
   (remove_order_item_idempotent sampleDB 1 1).2.2.1
     ⟨sampleOrderRow, [], [sampleUpdateRow]⟩ (by decide),
   (remove_order_item_idempotent sampleDB 1 1).2.2.2
     ⟨sampleOrderRow, [sampleItemRow], [sampleUpdateRow]⟩ (by decide)⟩

/-- A leading all-whitespace block is dropped whole by `dropWhile`. -/
theorem dropWhile_ws_append (a b : List Char) (h : ∀ c ∈ a, c.isWhitespace) :
    (a ++ b).dropWhile Char.isWhitespace = b.dropWhile Char.isWhitespace := by
  rw [List.dropWhile_append,
    if_pos (List.isEmpty_iff.mpr (List.dropWhile_eq_nil_iff.mpr h))]

/-- Lemma: `pyStrip` swallows any all-whitespace padding around a string. -/
theorem pyStrip_pad (u s v : String) (hu : ∀ c ∈ u.data, c.isWhitespace)
    (hv : ∀ c ∈ v.data, c.isWhitespace) :
    pyStrip (String.mk (u.data ++ s.data ++ v.data)) = pyStrip s := by
  unfold pyStrip
  dsimp only
  rw [List.append_assoc, dropWhile_ws_append _ _ hu]
  by_cases hs : s.data.dropWhile Char.isWhitespace = []
  · rw [List.dropWhile_append, if_pos (List.isEmpty_iff.mpr hs),
      List.dropWhile_eq_nil_iff.mpr hv, hs]
  · rw [List.dropWhile_append, if_neg (fun hc => hs (List.isEmpty_iff.mp hc)),
      List.reverse_append,
      dropWhile_ws_append _ _ (fun c hc => hv c (List.mem_reverse.mp hc))]

/-- C8: the catalog lookups match on the trimmed, case-folded identifier: any
two queries with the same normal form resolve to the same entity (so changing
the case of, or padding whitespace around, the queried id never changes the
result), and an unmatched query returns `none` instead of raising. -/
theorem find_catalog_normalized (menu : Menu) (s t u v : String) :
    (pyLower (pyStrip s) = pyLower (pyStrip t) →
       find_pizza menu s = find_pizza menu t ∧
       find_extra menu s = find_extra menu t) ∧
    ((∀ c ∈ u.data, c.isWhitespace) → (∀ c ∈ v.data, c.isWhitespace) →
       find_pizza menu (String.mk (u.data ++ s.data ++ v.data)) = find_pizza menu s ∧
       find_extra menu (String.mk (u.data ++ s.data ++ v.data)) = find_extra menu s) ∧
    ((∀ p ∈ menu.pizzas, pyLower p.id ≠ pyLower (pyStrip s)) →
       find_pizza menu s = none) ∧
    ((∀ e ∈ menu.extras, pyLower e.id ≠ pyLower (pyStrip s)) →
       find_extra menu s = none) := by
  refine ⟨fun h => ?_, fun hu hv => ?_, fun h => ?_, fun h => ?_⟩
  · unfold find_pizza find_extra
    rw [h]
    exact ⟨rfl, rfl⟩
  · unfold find_pizza find_extra
    rw [pyStrip_pad u s v hu hv]
    exact ⟨rfl, rfl⟩
  · exact List.find?_eq_none.mpr (fun p hp hb => h p hp (by simpa using hb))
  · exact List.find?_eq_none.mpr (fun e he hb => h e he (by simpa using hb))

/-- Witness for C8: uppercase, lowercase and whitespace-padded queries agree
on the sample catalog, and an unknown pizza id yields `none`. -/
theorem find_catalog_normalized_witness :
    (find_pizza sampleMenu "MARGHERITA" = find_pizza sampleMenu "margherita" ∧
     find_extra sampleMenu "MARGHERITA" = find_extra sampleMenu "margherita") ∧
    (find_pizza sampleMenu (String.mk (" ".data ++ "margherita".data ++ "  ".data))
        = find_pizza sampleMenu "margherita" ∧
     find_extra sampleMenu (String.mk (" ".data ++ "margherita".data ++ "  ".data))
        = find_extra sampleMenu "margherita") ∧
    find_pizza sampleMenu "hawaiian" = none :=
  ⟨(find_catalog_normalized sampleMenu "MARGHERITA" "margherita" "" "").1 (by decide),
   (find_catalog_normalized sampleMenu "margherita" "margherita" " " "  ").2.1
     (by decide) (by decide),
   (find_catalog_normalized sampleMenu "hawaiian" "" "" "").2.2.1 (by decide)⟩

/-- Running a list of status updates against an existing order: every call
succeeds, each appends exactly its audit row, and the status column always
tracks the most recently appended row. -/
theorem apply_status_updates_spec {db : DB} {oid : Nat} {snap : OrderSnapshot}
    (calls : List (String × Option String)) (h : get_order db oid = some snap)
    (hlast : (snap.updates.map (fun u => u.status)).getLast?
        = some snap.order.status) :
    ∃ db2 snap2, apply_status_updates db oid calls = (Except.ok (), db2) ∧
      get_order db2 oid = some snap2 ∧
      snap2.updates.map (fun u => (u.status, u.message))
        = snap.updates.map (fun u => (u.status, u.message)) ++ calls ∧
      (snap2.updates.map (fun u => u.status)).getLast? = some snap2.order.status := by
  induction calls generalizing db snap with
  | nil => exact ⟨db, snap, rfl, h, by simp, hlast⟩
  | cons c rest ih =>
      obtain ⟨db', hset, hget⟩ := set_order_status_spec c.1 c.2 h
      have hlast' : ((snap.updates ++
          [({ id := db.next_update_id, order_id := oid, status := c.1,
              message := c.2, created_at := db.clock } : OrderUpdateRow)]).map
            (fun u => u.status)).getLast? = some c.1 := by
        rw [List.map_append]
        exact List.getLast?_concat _
      obtain ⟨db2, snap2, happ, hget2, hmap, hst⟩ := ih hget hlast'
      refine ⟨db2, snap2, ?_, hget2, ?_, hst⟩
      · unfold apply_status_updates
        rw [hset]
        exact happ
      · rw [hmap]
        simp

/-- C2: after `create_order` and any sequence of N `set_order_status` calls,
the audit log of the order holds exactly N+1 rows — the draft creation row then one
row per call, in order of the calls — and the status column of the order equals the
status of the most recently appended audit row. -/
theorem create_order_audit_trail (db : DB) (cid : Option Nat) (dt : String)
    (addr notes : Option String) (calls : List (String × Option String))
    (hWF : WF db) :
    ∃ db2 snap2,
      apply_status_updates (create_order db cid dt addr notes).2
        (create_order db cid dt addr notes).1 calls = (Except.ok (), db2) ∧
      get_order db2 (create_order db cid dt addr notes).1 = some snap2 ∧
      snap2.updates.length = calls.length + 1 ∧
      snap2.updates.map (fun u => (u.status, u.message))
        = ("draft", some "Order created") :: calls ∧
      (snap2.updates.map (fun u => u.status)).getLast? = some snap2.order.status := by
  have hc := create_order_spec cid dt addr notes hWF
  obtain ⟨db2, snap2, happ, hget, hmap, hst⟩ :=
    apply_status_updates_spec calls hc (by simp)
  refine ⟨db2, snap2, happ, hget, ?_, ?_, hst⟩
  · have hlen := congrArg List.length hmap
    simpa using hlen
  · simpa using hmap

/-- Witness for C2: create an order in the empty store and push two status
updates; the audit log has three rows and tracks the last status. -/
theorem create_order_audit_trail_witness :
    ∃ db2 snap2,
      apply_status_updates (create_order DB.empty none "pickup" none none).2
        (create_order DB.empty none "pickup" none none).1
        [("placed", some "Order placed"), ("preparing", none)] = (Except.ok (), db2) ∧
      get_order db2 (create_order DB.empty none "pickup" none none).1 = some snap2 ∧
      snap2.updates.length = 2 + 1 ∧
      snap2.updates.map (fun u => (u.status, u.message))
        = ("draft", some "Order created") ::
          [("placed", some "Order placed"), ("preparing", none)] ∧
      (snap2.updates.map (fun u => u.status)).getLast? = some snap2.order.status :=
  create_order_audit_trail DB.empty none "pickup" none none
    [("placed", some "Order placed"), ("preparing", none)] (by decide)

/-- The store with the sample order but no items, for the empty-checkout
witness. -/
def emptyOrderDB : DB := { sampleDB with order_items := [] }

/-- C3: `checkout` rejects an absent order, then an empty order, with the
exact validation errors and without touching any table; on an order with at
least one item it moves the status to `placed` with message "Order placed"
and returns the refreshed payload together with the computed totals. -/
theorem checkout_validation (menu : Menu) (db : DB) (oid : Nat) :
    (get_order db oid = none →
       checkout menu db oid
         = (Except.error (DbError.validation "Order not found"), db)) ∧
    (∀ snap, get_order db oid = some snap → snap.items = [] →
       checkout menu db oid
         = (Except.error (DbError.validation "Order has no items"), db)) ∧
    (∀ snap, get_order db oid = some snap → snap.items ≠ [] →
       ∃ db' snap', checkout menu db oid =
           (Except.ok (some snap', compute_totals snap.items
              (if snap.order.delivery_type == "delivery" then menu.delivery_fee else 0)
              menu.tax_percent), db') ∧
         get_order db' oid = some snap' ∧
         snap'.order.status = "placed" ∧
         (snap'.updates.map (fun u => (u.status, u.message))).getLast?
            = some ("placed", some "Order placed")) := by
  refine ⟨fun h => ?_, fun snap h hnil => ?_, fun snap h hne => ?_⟩
  · unfold checkout
    rw [h]
  · unfold checkout
    rw [h]
    dsimp only
    rw [if_pos (by rw [List.isEmpty_iff]; exact hnil)]
  · obtain ⟨db', hco, hget⟩ := checkout_spec h hne
    refine ⟨db', _, ?_, hget, rfl, ?_⟩
    · rw [hco, hget]
    · rw [List.map_append]
      exact List.getLast?_concat _

/-- Witness for C3: absent order, empty order, and a successful checkout on
the sample store. -/
theorem checkout_validation_witness :
    checkout sampleMenu DB.empty 1
        = (Except.error (DbError.validation "Order not found"), DB.empty) ∧
    checkout sampleMenu emptyOrderDB 1
        = (Except.error (DbError.validation "Order has no items"), emptyOrderDB) ∧
    (∃ db' snap', checkout sampleMenu sampleDB 1 =
        (Except.ok (some snap', compute_totals [sampleItemRow]
           (if sampleOrderRow.delivery_type == "delivery" then sampleMenu.delivery_fee else 0)
           sampleMenu.tax_percent), db') ∧
       get_order db' 1 = some snap' ∧
       snap'.order.status = "placed" ∧
       (snap'.updates.map (fun u => (u.status, u.message))).getLast?
          = some ("placed", some "Order placed")) :=
  ⟨(checkout_validation sampleMenu DB.empty 1).1 (by decide),
   (checkout_validation sampleMenu emptyOrderDB 1).2.1
     ⟨sampleOrderRow, [], [sampleUpdateRow]⟩ (by decide) rfl,
   (checkout_validation sampleMenu sampleDB 1).2.2
     ⟨sampleOrderRow, [sampleItemRow], [sampleUpdateRow]⟩ (by decide) (by decide)⟩

/-- C9: checkout is not idempotent at the status layer — on an order with at
least one item two consecutive checkouts both succeed, append two `placed`
audit rows, and leave the current status `placed`. -/
theorem checkout_twice_appends (menu : Menu) (db : DB) (oid : Nat)
    (snap : OrderSnapshot) (h : get_order db oid = some snap)
    (hne : snap.items ≠ []) :
    ∃ r1 db1 r2 db2, checkout menu db oid = (Except.ok r1, db1) ∧
      checkout menu db1 oid = (Except.ok r2, db2) ∧
      ∃ snap2, get_order db2 oid = some snap2 ∧
        snap2.order.status = "placed" ∧
        snap2.updates.map (fun u => (u.status, u.message))
          = snap.updates.map (fun u => (u.status, u.message))
            ++ [("placed", some "Order placed"), ("placed", some "Order placed")] := by
  obtain ⟨db1, hco1, hget1⟩ := checkout_spec h hne
  obtain ⟨db2, hco2, hget2⟩ := checkout_spec hget1 hne
  refine ⟨_, db1, _, db2, hco1, hco2, _, hget2, rfl, ?_⟩
  simp

/-- Witness for C9: two checkouts of the sample order append two `placed`
rows after the creation row. -/
theorem checkout_twice_appends_witness :
    ∃ r1 db1 r2 db2, checkout sampleMenu sampleDB 1 = (Except.ok r1, db1) ∧
      checkout sampleMenu db1 1 = (Except.ok r2, db2) ∧
      ∃ snap2, get_order db2 1 = some snap2 ∧
        snap2.order.status = "placed" ∧
        snap2.updates.map (fun u => (u.status, u.message))
          = [sampleUpdateRow].map (fun u => (u.status, u.message))
            ++ [("placed", some "Order placed"), ("placed", some "Order placed")] :=
  checkout_twice_appends sampleMenu sampleDB 1
    ⟨sampleOrderRow, [sampleItemRow], [sampleUpdateRow]⟩ (by decide) (by decide)

/-- C4 (Scenario A): in any well-formed store whose catalog prices a medium
margherita at 800, starting a pickup order with no customer name, adding two
medium margheritas, and checking out yields subtotal 1600, delivery fee 0 and
tax = round(1600·taxPercent), and leaves the order in status `placed`. -/
theorem scenario_pickup_margherita (menu : Menu) (db : DB) (p : Pizza)
    (hWF : WF db) (hfind : find_pizza menu "margherita" = some p)
    (hmed : p.medium = 800) :
    ∃ oid db1 s1 db2 s2 db3,
      start_order db "pickup" none none none none = (Except.ok oid, db1) ∧
      add_pizza menu db1 oid "margherita" "medium" 2 = (Except.ok s1, db2) ∧
      checkout menu db2 oid =
        (Except.ok (s2, { subtotal := 1600
                          delivery_fee := 0
                          tax := roundHalfEven (1600 * menu.tax_percent)
                          total := 1600 + roundHalfEven (1600 * menu.tax_percent) }), db3) ∧
      (∃ snap3, get_order db3 oid = some snap3 ∧ snap3.order.status = "placed") := by
  have hpick : pyLower (pyStrip "pickup") = "pickup" := by decide
  have hmedium : pyLower (pyStrip "medium") = "medium" := by decide
  have hsp : sizePrice p "medium" = 800 := by
    unfold sizePrice
    rw [if_neg (by decide), if_pos (by decide)]
    exact hmed
  have hsnap0 := create_order_spec none "pickup" none none hWF
  have hstart : start_order db "pickup" none none none none
      = (Except.ok (create_order db none "pickup" none none).1,
         (create_order db none "pickup" none none).2) := by
    unfold start_order
    rw [hpick, if_pos (Or.inr rfl)]
  obtain ⟨db2, hadd, hsnap1⟩ :=
    add_order_item_spec "pizza" p.id p.name 2 800 (some "medium") hsnap0
  have haddp : add_pizza menu (create_order db none "pickup" none none).2
      (create_order db none "pickup" none none).1 "margherita" "medium" 2
      = (Except.ok (get_order db2 (create_order db none "pickup" none none).1), db2) := by
    unfold add_pizza
    rw [hmedium, if_pos (Or.inr (Or.inl rfl)), hfind]
    dsimp only
    rw [hsp, hadd]
  obtain ⟨db3, hco, hsnap3⟩ := checkout_spec hsnap1 (by simp)
  dsimp only [List.nil_append] at hco
  rw [if_neg (by decide)] at hco
  have htot : compute_totals
      [({ id := (create_order db none "pickup" none none).2.next_item_id
          order_id := (create_order db none "pickup" none none).1
          item_type := "pizza"
          item_id := p.id
          item_name := p.name
          size := some "medium"
          qty := 2
          unit_price := 800
          created_at := (create_order db none "pickup" none none).2.clock }
        : OrderItemRow)] 0 menu.tax_percent
      = { subtotal := 1600, delivery_fee := 0,
          tax := roundHalfEven (1600 * menu.tax_percent),
          total := 1600 + roundHalfEven (1600 * menu.tax_percent) } := by
    unfold compute_totals
    push_cast
    norm_num
  rw [htot] at hco
  exact ⟨(create_order db none "pickup" none none).1,
    (create_order db none "pickup" none none).2,
    get_order db2 (create_order db none "pickup" none none).1, db2,
    get_order db3 (create_order db none "pickup" none none).1, db3,
    hstart, haddp, hco, _, hsnap3, rfl⟩

/-- Witness for C4: running Scenario A against the sample catalog from the
empty store. -/
theorem scenario_pickup_margherita_witness :
    ∃ oid db1 s1 db2 s2 db3,
      start_order DB.empty "pickup" none none none none = (Except.ok oid, db1) ∧
      add_pizza sampleMenu db1 oid "margherita" "medium" 2 = (Except.ok s1, db2) ∧
      checkout sampleMenu db2 oid =
        (Except.ok (s2, { subtotal := 1600
                          delivery_fee := 0
                          tax := roundHalfEven (1600 * sampleMenu.tax_percent)
                          total := 1600 + roundHalfEven (1600 * sampleMenu.tax_percent) }), db3) ∧
      (∃ snap3, get_order db3 oid = some snap3 ∧ snap3.order.status = "placed") :=
  scenario_pickup_margherita sampleMenu DB.empty
    { id := "margherita", name := "Margherita", small := 500, medium := 800, large := 1100 }
    (by decide) (by decide) rfl
